import Mathlib

/-
Shallow embedding of the LinkTool block plugin (src/src/index.js).

Modelling conventions:
- JS truthiness of optional object/string fields is captured with `Option`:
  `none` stands for an absent or otherwise falsy field value (undefined,
  null, 0, "", false), since every code path inspects only truthiness
  before storing such a field.  A present, truthy object is `some _`
  (note that in JS the empty object literal is truthy).
- For `String` fields the JS `a || b` fallback additionally treats the
  empty string as falsy; `orElseStr` models that exactly.
- The DOM is abstracted to the booleans the code toggles: whether the
  input holder and the link-preview subtrees are children of the
  container, and the presence of each CSS class the code adds/removes.
- `i18n.t` and the notifier are external collaborators; the three
  distinct messages the code can emit are the inductive `Msg`, and the
  notifier is a list of shown messages.
- The async fetch is modelled by its settlement: `fetchSettle` performs
  the synchronous start of `fetchLinkData` and then dispatches on the
  outcome (transport error, i.e. the `catch` branch, or a delivered
  body handled by `onFetch`).  The 500 ms minimum-display timer of
  `hideProgress` only delays the `.then` continuation; the model runs
  the continuation after the synchronous class changes, in order.
-/

namespace LinkTool

/-- The two values of `LinkTool.STATE` (`EDIT:0`, `VIEW:1`). -/
inductive BState where
  | edit
  | view
deriving DecidableEq

/-- A JS object used as a metadata bag, as a list of key/value entries.
Only its emptiness (`Object.keys(meta).length`) and identity matter to
the code, so values are kept as opaque strings. -/
abbrev MetaObj : Type := List (String × String)

/-- The persisted data model `this._data = { link, meta }`. -/
structure LinkData where
  link : String
  meta : MetaObj
deriving DecidableEq

/-- An argument passed to the `set data` accessor (or to the
constructor).  `none` in a field models an absent or falsy field. -/
structure DataInput where
  link : Option String
  meta : Option MetaObj
deriving DecidableEq

/-- The three user-facing messages passed through `this.api.i18n.t` to
the notifier.  The translation function is external, so messages are
kept symbolic. -/
inductive Msg where
  | couldNotFetch
  | couldNotGetLinkData
  | wrongResponseFormat
deriving DecidableEq

/-- The backend response body `{ success, meta?, link? }` expected by
`onFetch`.  `success` is the truthiness of the numeric field. -/
structure FetchResponse where
  success : Bool
  meta : Option MetaObj
  link : Option String
deriving DecidableEq

/-- How one fetch settles: the `catch` branch of `fetchLinkData`
(network error, non-2xx, timeout), or a delivered body, itself possibly
falsy (`none`). -/
inductive FetchOutcome where
  | transportError
  | ok (body : Option FetchResponse)
deriving DecidableEq

/-- The observable state of one block instance: the data model, the
transient `nodes.state`, which subtrees are attached to the container,
the CSS classes the code toggles, the input element text, the preview
label text, and the messages shown through the notifier. -/
structure Block where
  data : LinkData
  state : BState
  inputAttached : Bool
  previewAttached : Bool
  containerLoading : Bool
  containerLoaded : Bool
  containerView : Bool
  containerEdit : Bool
  containerError : Bool
  inputError : Bool
  progressLoading : Bool
  progressLoaded : Bool
  progressAttached : Bool
  inputText : String
  linkTextLabel : String
  notices : List Msg
deriving DecidableEq

/-- JS `v || fallback` for an optional string field: absent and the
empty string are falsy. -/
def orElseStr (v : Option String) (fallback : String) : String :=
  match v with
  | some s => if s = "" then fallback else s
  | none => fallback

/-- The `set data(data)` accessor:
`this._data = { link: data.link || this._data.link,
                meta: data.meta || this._data.meta }`. -/
def setData (d : LinkData) (input : DataInput) : LinkData :=
  { link := orElseStr input.link d.link
  , meta := input.meta.getD d.meta }

/-- JS `String.prototype.trim` (an external builtin): drops leading and
trailing whitespace.  Whitespace is Lean's `Char.isWhitespace`, which
covers the characters relevant here (space, tab, CR, LF). -/
def jsTrim (s : String) : String :=
  String.mk (((s.toList.dropWhile Char.isWhitespace).reverse.dropWhile Char.isWhitespace).reverse)

/-- `validate()`: `this.data.link.trim() !== ''`. -/
def validate (d : LinkData) : Bool :=
  jsTrim d.link != ""

/-- Scheme characters after the first: ALPHA / DIGIT / `+` / `-` / `.`. -/
def isSchemeChar (c : Char) : Bool :=
  c.isAlphanum || c == '+' || c == '-' || c == '.'

/-- Consume the tail of a URL scheme up to and including `:`, returning
what follows, or `none` when no well-formed scheme terminator is
reached (the parser throws). -/
def afterScheme : List Char → Option (List Char)
  | [] => none
  | c :: cs => if c == ':' then some cs else if isSchemeChar c then afterScheme cs else none

/-- Modelled from the spec: hostname extraction of the WHATWG `URL`
constructor (`new URL(link).hostname`), provided by the browser or the
imported `url-polyfill` package, which is not part of this repository.
The spec only requires that parsing the link as a URL either yields its
hostname or fails.  The model: a URL must start with an ALPHA-led scheme
followed by `:`; with a `//` authority the hostname is the authority up
to `/`, `?` or `#`, with any userinfo (up to `@`) and any `:port`
stripped, and must be non-empty; without `//` the hostname is empty.
`none` models the constructor throwing. -/
def urlHostname (s : String) : Option String :=
  match s.toList with
  | [] => none
  | c :: cs =>
    if c.isAlpha then
      match afterScheme cs with
      | none => none
      | some ('/' :: '/' :: afterSlashes) =>
        let authority := afterSlashes.takeWhile (fun ch => ch != '/' && ch != '?' && ch != '#')
        let hostPort :=
          if authority.contains '@' then
            (authority.reverse.takeWhile (fun ch => ch != '@')).reverse
          else authority
        let host := hostPort.takeWhile (fun ch => ch != ':')
        if host.isEmpty then none else some (String.mk host)
      | some _ => some ""
    else none

/-- The `try { ... hostname } catch { ... raw link }` at the end of
`showLinkPreview`, as a total function: the hostname when URL parsing
succeeds, the raw link string verbatim otherwise. -/
def linkLabel (link : String) : String :=
  match urlHostname link with
  | some host => host
  | none => link

/-- `showLinkPreview(meta)`: sets `nodes.state = VIEW`, appends the
preview subtree to the container, swaps the container `view`/`edit`
classes and renders the label from `this.data.link`.  The meta-derived
children of the preview subtree (image, title, description) are DOM
details not tracked by the model. -/
def showLinkPreview (m : MetaObj) (b : Block) : Block :=
  { b with state := BState.view
         , previewAttached := true
         , containerView := true
         , containerEdit := false
         , linkTextLabel := linkLabel b.data.link }

/-- `hideLinkPreview()`: removes the preview subtree from the container. -/
def hideLinkPreview (b : Block) : Block :=
  { b with previewAttached := false }

/-- `showInputHolder()`: sets `nodes.state = EDIT`, appends the input
holder, removes the `loaded` classes and swaps `view` for `edit`. -/
def showInputHolder (b : Block) : Block :=
  { b with state := BState.edit
         , inputAttached := true
         , containerLoaded := false
         , progressLoaded := false
         , containerView := false
         , containerEdit := true }

/-- `hideInputHolder()`: removes the input holder from the container. -/
def hideInputHolder (b : Block) : Block :=
  { b with inputAttached := false }

/-- `showProgress()`: adds the `loading` classes. -/
def showProgress (b : Block) : Block :=
  { b with containerLoading := true
         , progressLoading := true }

/-- The synchronous part of `hideProgress()`: swaps the `loading`
classes for the `loaded` classes (the returned promise resolves 500 ms
later without further effects). -/
def hideProgress (b : Block) : Block :=
  { b with containerLoading := false
         , progressLoading := false
         , containerLoaded := true
         , progressLoaded := true }

/-- `applyErrorStyle()`: adds the error classes, removes the container
`loading` class and detaches the progress node. -/
def applyErrorStyle (b : Block) : Block :=
  { b with containerError := true
         , containerLoading := false
         , inputError := true
         , progressAttached := false }

/-- `removeErrorStyle()`: removes the error classes and re-inserts the
progress node before the input. -/
def removeErrorStyle (b : Block) : Block :=
  { b with containerError := false
         , inputError := false
         , progressAttached := true }

/-- `fetchingFailed(errorMessage)`: shows the message through the
notifier, then applies the error style. -/
def fetchingFailed (errorMessage : Msg) (b : Block) : Block :=
  applyErrorStyle { b with notices := b.notices ++ [errorMessage] }

/-- The synchronous start of `fetchLinkData(url)`: shows progress and
optimistically stores `{ link: url }` through the data setter, before
any response arrives. -/
def fetchLinkData (b : Block) (url : String) : Block :=
  let b1 := showProgress b
  { b1 with data := setData b1.data { link := some url, meta := none } }

/-- `onFetch(response)`: a falsy body or falsy `success` takes the
failure path; otherwise the data model is updated with the response
`meta` and `link` (the latter falling back to the current link), then a
falsy `meta` takes the wrong-format failure path, and otherwise the
success path hides progress, detaches the input and shows the preview. -/
def onFetch (b : Block) (response : Option FetchResponse) : Block :=
  match response with
  | none => fetchingFailed Msg.couldNotGetLinkData b
  | some r =>
    if r.success = false then
      fetchingFailed Msg.couldNotGetLinkData b
    else
      let metaData := r.meta
      let link := orElseStr r.link b.data.link
      let b1 := { b with data := setData b.data { link := some link, meta := metaData } }
      match metaData with
      | none => fetchingFailed Msg.wrongResponseFormat b1
      | some m => showLinkPreview m (hideInputHolder (hideProgress b1))

/-- One whole fetch of `url`, from the start of `fetchLinkData` to its
settlement: the `catch` branch on transport failure, `onFetch` on a
delivered body. -/
def fetchSettle (b : Block) (url : String) (out : FetchOutcome) : Block :=
  let b1 := fetchLinkData b url
  match out with
  | FetchOutcome.transportError => fetchingFailed Msg.couldNotFetch b1
  | FetchOutcome.ok body => onFetch b1 body

/-- `startFetching(event)` with an explicit url (the paste branch reads
the clipboard instead of the input): removes error styles, then fetches. -/
def startFetchingWith (b : Block) (url : String) (out : FetchOutcome) : Block :=
  fetchSettle (removeErrorStyle b) url out

/-- `startFetching()` without a paste event: the url is the current
text content of the input element. -/
def startFetching (b : Block) (out : FetchOutcome) : Block :=
  startFetchingWith b b.inputText out

/-- `changeState(state)`: the EDIT case hides the preview and shows the
input holder; the VIEW case starts a fetch. -/
def changeState (b : Block) (s : BState) (out : FetchOutcome) : Block :=
  match s with
  | BState.edit => showInputHolder (hideLinkPreview b)
  | BState.view => startFetching b out

/-- The `onActivate` of the settings item:
`changeState(this.nodes.state === 0 ? 1 : 0)`. -/
def settingsOnActivate (b : Block) (out : FetchOutcome) : Block :=
  changeState b (if b.state = BState.edit then BState.view else BState.edit) out

/-- The `isActive` flag of the settings item. -/
def settingsIsActive (b : Block) : Bool :=
  b.state = BState.edit

/-- The constructor: `nodes.state = EDIT`, `_data = {link:'', meta:{}}`,
then `this.data = data` through the setter.  No nodes exist yet. -/
def construct (input : DataInput) : Block :=
  { data := setData { link := "", meta := [] } input
  , state := BState.edit
  , inputAttached := false
  , previewAttached := false
  , containerLoading := false
  , containerLoaded := false
  , containerView := false
  , containerEdit := false
  , containerError := false
  , inputError := false
  , progressLoading := false
  , progressLoaded := false
  , progressAttached := false
  , inputText := ""
  , linkTextLabel := ""
  , notices := [] }

/-- `render()`: builds fresh wrapper, container, input holder and
preview nodes (so every class and attachment flag is reset and the
progress node sits in the input holder), then shows the preview when
`Object.keys(this.data.meta).length` is non-zero (appending the preview
before `showLinkPreview` also does) and shows the input holder
otherwise. -/
def render (b : Block) : Block :=
  let b1 := { b with inputAttached := false
                   , previewAttached := false
                   , containerLoading := false
                   , containerLoaded := false
                   , containerView := false
                   , containerEdit := false
                   , containerError := false
                   , inputError := false
                   , progressLoading := false
                   , progressLoaded := false
                   , progressAttached := true
                   , inputText := ""
                   , linkTextLabel := "" }
  if b1.data.meta.isEmpty then
    showInputHolder b1
  else
    showLinkPreview b1.data.meta { b1 with previewAttached := true }

/-- The discrete events a rendered block reacts to.  `submit` covers
the button click, the Enter key (with the url read from the input) and
the paste event (with the url read from the clipboard, hence an
arbitrary string); both require the input holder to be interactable.
`setInput` is the user editing the contenteditable input.
`settingsToggle` is the host activating the settings item. -/
inductive Event where
  | setInput (text : String)
  | submit (url : String) (out : FetchOutcome)
  | settingsToggle (out : FetchOutcome)

/-- One event step of the rendered block. -/
def step (b : Block) (e : Event) : Block :=
  match e with
  | Event.setInput t => if b.inputAttached then { b with inputText := t } else b
  | Event.submit url out => if b.inputAttached then startFetchingWith b url out else b
  | Event.settingsToggle out => settingsOnActivate b out

/-- The states a block instance can be in: freshly constructed and
rendered with some loaded data, or an event step away from a reachable
state. -/
inductive Reachable : Block → Prop where
  | rendered (input : DataInput) : Reachable (render (construct input))
  | stepped (b : Block) (e : Event) : Reachable b → Reachable (step b e)

/-- A JS `v || fallback` on strings is non-empty when the fallback is. -/
lemma orElseStr_ne_empty (v : Option String) (fallback : String) (h : fallback ≠ "") :
    orElseStr v fallback ≠ "" := by
  cases v with
  | none => simpa [orElseStr] using h
  | some s => by_cases hs : s = "" <;> simp [orElseStr, hs, h]

/-- A JS `(some s) || fallback` keeps `s` when `s` is non-empty. -/
lemma orElseStr_some (s fallback : String) (h : s ≠ "") :
    orElseStr (some s) fallback = s := by
  simp [orElseStr, h]

/-- The data setter never turns a non-empty stored link empty. -/
lemma setData_link_ne_empty (d : LinkData) (input : DataInput) (h : d.link ≠ "") :
    (setData d input).link ≠ "" :=
  orElseStr_ne_empty input.link d.link h

/-- A settled fetch never turns a non-empty stored link empty. -/
lemma fetchSettle_link_ne_empty (b : Block) (url : String) (out : FetchOutcome)
    (h : b.data.link ≠ "") : (fetchSettle b url out).data.link ≠ "" := by
  have h1 : (fetchLinkData b url).data.link ≠ "" := setData_link_ne_empty _ _ h
  cases out with
  | transportError => simpa [fetchSettle, fetchingFailed, applyErrorStyle] using h1
  | ok body =>
    cases body with
    | none => simpa [fetchSettle, onFetch, fetchingFailed, applyErrorStyle] using h1
    | some r =>
      by_cases hs : r.success = false
      · simpa [fetchSettle, onFetch, hs, fetchingFailed, applyErrorStyle] using h1
      · cases hm : r.meta with
        | none =>
          simpa [fetchSettle, onFetch, hs, hm, fetchingFailed, applyErrorStyle] using
            setData_link_ne_empty _ { link := some (orElseStr r.link (fetchLinkData b url).data.link), meta := none } h1
        | some m =>
          simpa [fetchSettle, onFetch, hs, hm, showLinkPreview, hideInputHolder, hideProgress] using
            setData_link_ne_empty _ { link := some (orElseStr r.link (fetchLinkData b url).data.link), meta := some m } h1

/-- C5: `validate` returns true iff the stored link, trimmed, is
non-empty; in particular it rejects `""` and `"  "` and accepts `"x"`,
whatever the meta. -/
theorem validate_iff_trimmed_link_nonempty :
    (∀ d : LinkData, validate d = true ↔ jsTrim d.link ≠ "") ∧
    (∀ m : MetaObj, validate { link := "", meta := m } = false) ∧
    (∀ m : MetaObj, validate { link := "  ", meta := m } = false) ∧
    (∀ m : MetaObj, validate { link := "x", meta := m } = true) := by
  refine ⟨fun d => ?_, fun m => rfl, fun m => rfl, fun m => rfl⟩
  simp [validate]

/-- C6: the data setter merges, never replaces: an input omitting
`meta` keeps the prior meta, an input omitting `link` keeps the prior
link, and setting `{link:"a"}` then `{meta:{title:"t"}}` yields
`{link:"a", meta:{title:"t"}}`. -/
theorem setData_merges_fields :
    (∀ (d : LinkData) (l : String),
        (setData d { link := some l, meta := none }).meta = d.meta) ∧
    (∀ (d : LinkData) (m : MetaObj),
        (setData d { link := none, meta := some m }).link = d.link) ∧
    setData (setData { link := "", meta := [] } { link := some "a", meta := none })
        { link := none, meta := some [("title", "t")] } =
      { link := "a", meta := [("title", "t")] } :=
  ⟨fun _ _ => rfl, fun _ _ => rfl, by decide⟩

/-- C10: a falsy `link` in a setter input keeps the prior link, so a
non-empty stored link stays non-empty across every setter call — in
particular across the optimistic link update of a fetch started with
empty input text, and across every event step of the block. -/
theorem nonempty_link_never_cleared :
    (∀ (d : LinkData) (input : DataInput), d.link ≠ "" → (setData d input).link ≠ "") ∧
    (∀ b : Block, (fetchLinkData b "").data.link = b.data.link) ∧
    (∀ (b : Block) (e : Event), b.data.link ≠ "" → (step b e).data.link ≠ "") := by
  refine ⟨fun d input h => setData_link_ne_empty d input h, fun b => ?_, fun b e h => ?_⟩
  · simp [fetchLinkData, showProgress, setData, orElseStr]
  · cases e with
    | setInput t => cases hi : b.inputAttached <;> simpa [step, hi] using h
    | submit url out =>
      cases hi : b.inputAttached
      · simpa [step, hi] using h
      · simpa [step, hi, startFetchingWith] using
          fetchSettle_link_ne_empty (removeErrorStyle b) url out (by simpa [removeErrorStyle] using h)
    | settingsToggle out =>
      cases hbs : b.state
      · simpa [step, settingsOnActivate, hbs, changeState, startFetching, startFetchingWith] using
          fetchSettle_link_ne_empty (removeErrorStyle b) b.inputText out (by simpa [removeErrorStyle] using h)
      · simpa [step, settingsOnActivate, hbs, changeState, showInputHolder, hideLinkPreview] using h

/-- C10 witness: the setter at a concrete non-empty prior link and a
concrete empty-string link input. -/
theorem nonempty_link_never_cleared_witness :
    (setData { link := "x", meta := [] } { link := some "", meta := none }).link ≠ "" :=
  nonempty_link_never_cleared.1 { link := "x", meta := [] }
    { link := some "", meta := none } (by decide)

/-- C4: `render()` mounts the VIEW state (preview attached, input not
shown) exactly when the loaded data's meta object has at least one key,
and mounts the EDIT state (input attached) when the meta is empty. -/
theorem render_mounts_view_iff_meta_nonempty (b : Block) :
    (((render b).state = BState.view ∧ (render b).previewAttached = true ∧
        (render b).inputAttached = false) ↔ b.data.meta ≠ []) ∧
    (b.data.meta = [] →
      (render b).state = BState.edit ∧ (render b).inputAttached = true ∧
        (render b).previewAttached = false) := by
  cases hm : b.data.meta with
  | nil => simp [render, hm, showInputHolder, showLinkPreview]
  | cons p ps => simp [render, hm, showInputHolder, showLinkPreview]

/-- C4 witness: rendering concrete loaded data without meta mounts
EDIT, and with one meta key mounts VIEW. -/
theorem render_mounts_view_iff_meta_nonempty_witness :
    (render (construct { link := some "x", meta := none })).state = BState.edit ∧
    (render (construct { link := none, meta := some [("title", "t")] })).state = BState.view :=
  ⟨((render_mounts_view_iff_meta_nonempty
        (construct { link := some "x", meta := none })).2 (by decide)).1,
   ((render_mounts_view_iff_meta_nonempty
        (construct { link := none, meta := some [("title", "t")] })).1.mpr (by decide)).1⟩

/-- C7: the preview label is the hostname of the stored link when URL
parsing succeeds and the raw link string verbatim otherwise, with the
derivation total (the `catch` branch absorbs the parse failure):
`showLinkPreview` always sets the label to `linkLabel` of the link,
`linkLabel` is hostname-or-raw, and on the concrete examples
`"https://example.com/a/b"` yields `"example.com"` while `"not a url"`
fails to parse and is shown verbatim. -/
theorem preview_label_hostname_or_raw :
    (∀ (b : Block) (m : MetaObj),
        (showLinkPreview m b).linkTextLabel = linkLabel b.data.link) ∧
    (∀ link : String, linkLabel link = (urlHostname link).getD link) ∧
    linkLabel "https://example.com/a/b" = "example.com" ∧
    urlHostname "not a url" = none ∧
    linkLabel "not a url" = "not a url" := by
  refine ⟨fun b m => rfl, fun link => ?_, by decide, by decide, by decide⟩
  cases h : urlHostname link <;> simp [linkLabel, h]

/-- C8: activating the settings toggle in VIEW runs the EDIT branch of
`changeState` (hide preview, show input) and leaves the data model
untouched; activating it in EDIT re-runs the fetch path on the current
input element text rather than the persisted link. -/
theorem settings_toggle_behaviour (b : Block) (out : FetchOutcome) :
    (b.state = BState.view →
      settingsOnActivate b out = showInputHolder (hideLinkPreview b) ∧
      (settingsOnActivate b out).state = BState.edit ∧
      (settingsOnActivate b out).data = b.data) ∧
    (b.state = BState.edit →
      settingsOnActivate b out = startFetchingWith b b.inputText out) := by
  constructor
  · intro hv
    have he : settingsOnActivate b out = showInputHolder (hideLinkPreview b) := by
      simp [settingsOnActivate, hv, changeState]
    exact ⟨he, by simp [he, showInputHolder],
      by simp [he, showInputHolder, hideLinkPreview]⟩
  · intro he
    simp [settingsOnActivate, he, changeState, startFetching]

/-- C8 witness: the toggle on a concrete rendered VIEW block lands in
EDIT, and on a concrete EDIT block equals the fetch path on the input
text. -/
theorem settings_toggle_behaviour_witness :
    (settingsOnActivate (render (construct { link := some "x", meta := some [("k", "v")] }))
        FetchOutcome.transportError).state = BState.edit ∧
    settingsOnActivate (construct { link := none, meta := none }) FetchOutcome.transportError =
      startFetchingWith (construct { link := none, meta := none })
        (construct { link := none, meta := none }).inputText FetchOutcome.transportError :=
  ⟨((settings_toggle_behaviour
        (render (construct { link := some "x", meta := some [("k", "v")] }))
        FetchOutcome.transportError).1 (by decide)).2.1,
   (settings_toggle_behaviour (construct { link := none, meta := none })
        FetchOutcome.transportError).2 (by decide)⟩

/-- However a fetch settles, the container `loading` class ends
cleared: every failure path goes through `applyErrorStyle` and the
success path through `hideProgress`. -/
lemma fetchSettle_containerLoading_false (b : Block) (url : String) (out : FetchOutcome) :
    (fetchSettle b url out).containerLoading = false := by
  cases out with
  | transportError => simp [fetchSettle, fetchingFailed, applyErrorStyle]
  | ok body =>
    cases body with
    | none => simp [fetchSettle, onFetch, fetchingFailed, applyErrorStyle]
    | some r =>
      by_cases hs : r.success = false
      · simp [fetchSettle, onFetch, hs, fetchingFailed, applyErrorStyle]
      · cases hm : r.meta with
        | none => simp [fetchSettle, onFetch, hs, hm, fetchingFailed, applyErrorStyle]
        | some m => simp [fetchSettle, onFetch, hs, hm, showLinkPreview, hideInputHolder, hideProgress]

/-- A freshly rendered block never carries the container `loading`
class. -/
lemma render_containerLoading_false (b : Block) :
    (render b).containerLoading = false := by
  cases hm : b.data.meta.isEmpty <;> simp [render, hm, showInputHolder, showLinkPreview]

/-- Invariant: in every reachable VIEW state the container `loading`
class is absent (the preview is only shown after `hideProgress`). -/
lemma reachable_view_loading_cleared {b : Block} (h : Reachable b) :
    b.state = BState.view → b.containerLoading = false := by
  induction h with
  | rendered input => intro _; exact render_containerLoading_false _
  | stepped b e hb ih =>
    cases e with
    | setInput t =>
      intro hv
      cases hi : b.inputAttached <;> simp [step, hi] at hv ⊢ <;> exact ih hv
    | submit url out =>
      intro hv
      cases hi : b.inputAttached
      · simp [step, hi] at hv ⊢; exact ih hv
      · simpa [step, hi, startFetchingWith] using
          fetchSettle_containerLoading_false (removeErrorStyle b) url out
    | settingsToggle out =>
      intro hv
      cases hbs : b.state
      · simpa [step, settingsOnActivate, hbs, changeState, startFetching, startFetchingWith] using
          fetchSettle_containerLoading_false (removeErrorStyle b) b.inputText out
      · simp [step, settingsOnActivate, hbs, changeState, showInputHolder, hideLinkPreview] at hv

/-- C9: on every reachable state where the VIEW-to-EDIT transition
fires (the settings toggle in VIEW; a failed fetch leaves the state at
EDIT and so never fires it), the transition detaches the preview,
attaches the input holder, clears the `loaded` class, and the `loading`
class is not present afterwards (it was already cleared before the
preview could be shown, and the transition keeps it cleared). -/
theorem view_to_edit_transition_effects (b : Block) (out : FetchOutcome)
    (h : Reachable b) (hv : b.state = BState.view) :
    (step b (Event.settingsToggle out)).state = BState.edit ∧
    (step b (Event.settingsToggle out)).previewAttached = false ∧
    (step b (Event.settingsToggle out)).inputAttached = true ∧
    (step b (Event.settingsToggle out)).containerLoaded = false ∧
    (step b (Event.settingsToggle out)).containerLoading = false := by
  have hl : b.containerLoading = false := reachable_view_loading_cleared h hv
  simp [step, settingsOnActivate, hv, changeState, showInputHolder, hideLinkPreview, hl]

/-- C1 counterexample: fetching the empty URL string `""` against a
prior stored link `"old"`, with a successful response carrying meta but
no `link` field, leaves the data model's link at `"old"` — not at the
fetched URL `""` as the claim (quantified over every URL string)
requires, because the optimistic `set data` treats the falsy empty
string as absent and keeps the prior value. -/
theorem fetch_success_empty_url_counterexample :
    (fetchSettle (construct { link := some "old", meta := none }) ""
        (FetchOutcome.ok (some { success := true, meta := some [("title", "T")], link := none }))).data.link
      = "old" ∧
    (fetchSettle (construct { link := some "old", meta := none }) ""
        (FetchOutcome.ok (some { success := true, meta := some [("title", "T")], link := none }))).data.link
      ≠ "" := by
  exact ⟨by decide, by decide⟩

/-- C1 (amended to non-empty fetched URLs): for every non-empty URL
string `u`, a fetch of `u` whose response has truthy `success` and a
non-empty meta object ends with the data model holding that meta and
the link `u` (or the response's `link` field when provided and
truthy), and the block in VIEW. -/
theorem fetch_success_final_model (b : Block) (u : String) (r : FetchResponse) (m : MetaObj)
    (hu : u ≠ "") (hs : r.success = true) (hm : r.meta = some m) (hmne : m ≠ []) :
    (fetchSettle b u (FetchOutcome.ok (some r))).data.link = orElseStr r.link u ∧
    (fetchSettle b u (FetchOutcome.ok (some r))).data.meta = m ∧
    (fetchSettle b u (FetchOutcome.ok (some r))).state = BState.view := by
  have h1 : (fetchLinkData b u).data.link = u := by
    simp [fetchLinkData, showProgress, setData, orElseStr, hu]
  have h2 : orElseStr r.link u ≠ "" := orElseStr_ne_empty r.link u hu
  refine ⟨?_, ?_, ?_⟩ <;>
    simp [fetchSettle, onFetch, hs, hm, h1, setData, showLinkPreview, hideInputHolder,
      hideProgress, orElseStr_some _ _ h2]

/-- C1 witness: the spec's own example, fetch of `"http://e.com"` with
response `{success:1, meta:{title:"T"}}`. -/
theorem fetch_success_final_model_witness :
    (fetchSettle (construct { link := none, meta := none }) "http://e.com"
        (FetchOutcome.ok (some { success := true, meta := some [("title", "T")], link := none }))).data.link
      = "http://e.com" ∧
    (fetchSettle (construct { link := none, meta := none }) "http://e.com"
        (FetchOutcome.ok (some { success := true, meta := some [("title", "T")], link := none }))).data.meta
      = [("title", "T")] ∧
    (fetchSettle (construct { link := none, meta := none }) "http://e.com"
        (FetchOutcome.ok (some { success := true, meta := some [("title", "T")], link := none }))).state
      = BState.view :=
  fetch_success_final_model (construct { link := none, meta := none }) "http://e.com"
    { success := true, meta := some [("title", "T")], link := none } [("title", "T")]
    (by decide) rfl rfl (by decide)

/-- C2 counterexample: fetching the empty URL string `""` against a
prior stored link `"old"` with response `{success:0}` leaves the data
model's link at `"old"`, not at the attempted URL `""` as the claim
(quantified over every URL string) requires. -/
theorem fetch_failure_empty_url_counterexample :
    (fetchSettle (construct { link := some "old", meta := some [("k", "v")] }) ""
        (FetchOutcome.ok (some { success := false, meta := none, link := none }))).data.link
      = "old" ∧
    (fetchSettle (construct { link := some "old", meta := some [("k", "v")] }) ""
        (FetchOutcome.ok (some { success := false, meta := none, link := none }))).data.link
      ≠ "" := by
  exact ⟨by decide, by decide⟩

/-- C2 (amended to non-empty fetched URLs): for every non-empty URL
string `u` and every prior block, a fetch of `u` whose response has
falsy `success` leaves the block state unchanged (so EDIT stays EDIT),
sets the error visual flags, shows the try-another-link message,
updates the link optimistically to `u` and leaves the meta unchanged. -/
theorem fetch_failure_keeps_state_sets_error (b : Block) (u : String) (r : FetchResponse)
    (hu : u ≠ "") (hs : r.success = false) :
    (fetchSettle b u (FetchOutcome.ok (some r))).state = b.state ∧
    (fetchSettle b u (FetchOutcome.ok (some r))).containerError = true ∧
    (fetchSettle b u (FetchOutcome.ok (some r))).inputError = true ∧
    (fetchSettle b u (FetchOutcome.ok (some r))).data.link = u ∧
    (fetchSettle b u (FetchOutcome.ok (some r))).data.meta = b.data.meta ∧
    (fetchSettle b u (FetchOutcome.ok (some r))).notices
      = b.notices ++ [Msg.couldNotGetLinkData] := by
  refine ⟨?_, ?_, ?_, ?_, ?_, ?_⟩ <;>
    simp [fetchSettle, onFetch, hs, fetchingFailed, applyErrorStyle, fetchLinkData,
      showProgress, setData, orElseStr, hu]

/-- C2 witness: the spec's own example, a `{success:0}` response to a
fetch of `"http://e.com"` from an EDIT block. -/
theorem fetch_failure_keeps_state_sets_error_witness :
    (fetchSettle (construct { link := none, meta := none }) "http://e.com"
        (FetchOutcome.ok (some { success := false, meta := none, link := none }))).state
      = (construct { link := none, meta := none }).state ∧
    (fetchSettle (construct { link := none, meta := none }) "http://e.com"
        (FetchOutcome.ok (some { success := false, meta := none, link := none }))).containerError
      = true ∧
    (fetchSettle (construct { link := none, meta := none }) "http://e.com"
        (FetchOutcome.ok (some { success := false, meta := none, link := none }))).inputError
      = true ∧
    (fetchSettle (construct { link := none, meta := none }) "http://e.com"
        (FetchOutcome.ok (some { success := false, meta := none, link := none }))).data.link
      = "http://e.com" ∧
    (fetchSettle (construct { link := none, meta := none }) "http://e.com"
        (FetchOutcome.ok (some { success := false, meta := none, link := none }))).data.meta
      = (construct { link := none, meta := none }).data.meta ∧
    (fetchSettle (construct { link := none, meta := none }) "http://e.com"
        (FetchOutcome.ok (some { success := false, meta := none, link := none }))).notices
      = (construct { link := none, meta := none }).notices ++ [Msg.couldNotGetLinkData] :=
  fetch_failure_keeps_state_sets_error (construct { link := none, meta := none })
    "http://e.com" { success := false, meta := none, link := none } (by decide) rfl

/-- C3 counterexample: when the block already holds fetched meta
`{title:"t"}` (EDIT re-entered via the settings toggle) and a new fetch
returns `{success:1}` without meta, the data model's meta stays
`{title:"t"}` — not the empty mapping the claim requires — because the
setter keeps the prior meta on a falsy input. -/
theorem wrong_format_meta_counterexample :
    (fetchSettle (construct { link := some "x", meta := some [("title", "t")] }) "u"
        (FetchOutcome.ok (some { success := true, meta := none, link := none }))).data.meta
      = [("title", "t")] ∧
    (fetchSettle (construct { link := some "x", meta := some [("title", "t")] }) "u"
        (FetchOutcome.ok (some { success := true, meta := none, link := none }))).data.meta
      ≠ [] := by
  exact ⟨by decide, by decide⟩

/-- C3 (amended: the meta is unchanged rather than necessarily empty —
it is the empty mapping exactly when it already was): a response with
truthy `success` but absent/falsy `meta` takes the failure path with
the wrong-response-format message, leaves the state unchanged (so EDIT
stays EDIT), sets the error flag and leaves the data model's meta at
its pre-fetch value. -/
theorem wrong_format_failure_path (b : Block) (u : String) (r : FetchResponse)
    (hs : r.success = true) (hm : r.meta = none) :
    (fetchSettle b u (FetchOutcome.ok (some r))).notices
      = b.notices ++ [Msg.wrongResponseFormat] ∧
    (fetchSettle b u (FetchOutcome.ok (some r))).state = b.state ∧
    (fetchSettle b u (FetchOutcome.ok (some r))).containerError = true ∧
    (fetchSettle b u (FetchOutcome.ok (some r))).data.meta = b.data.meta := by
  refine ⟨?_, ?_, ?_, ?_⟩ <;>
    simp [fetchSettle, onFetch, hs, hm, fetchingFailed, applyErrorStyle, fetchLinkData,
      showProgress, setData]

/-- C3 witness: the spec's own example, a `{success:1}` response with
no meta to a fetch from a freshly constructed block, whose meta is and
stays the empty mapping. -/
theorem wrong_format_failure_path_witness :
    (fetchSettle (construct { link := none, meta := none }) "http://e.com"
        (FetchOutcome.ok (some { success := true, meta := none, link := none }))).notices
      = (construct { link := none, meta := none }).notices ++ [Msg.wrongResponseFormat] ∧
    (fetchSettle (construct { link := none, meta := none }) "http://e.com"
        (FetchOutcome.ok (some { success := true, meta := none, link := none }))).state
      = (construct { link := none, meta := none }).state ∧
    (fetchSettle (construct { link := none, meta := none }) "http://e.com"
        (FetchOutcome.ok (some { success := true, meta := none, link := none }))).containerError
      = true ∧
    (fetchSettle (construct { link := none, meta := none }) "http://e.com"
        (FetchOutcome.ok (some { success := true, meta := none, link := none }))).data.meta
      = (construct { link := none, meta := none }).data.meta :=
  wrong_format_failure_path (construct { link := none, meta := none }) "http://e.com"
    { success := true, meta := none, link := none } rfl rfl

/-- C9 witness: the toggle applied to a concrete reachable VIEW state
(a block rendered from data with meta). -/
theorem view_to_edit_transition_effects_witness :
    (step (render (construct { link := some "x", meta := some [("title", "t")] }))
        (Event.settingsToggle FetchOutcome.transportError)).state = BState.edit :=
  (view_to_edit_transition_effects
      (render (construct { link := some "x", meta := some [("title", "t")] }))
      FetchOutcome.transportError
      (Reachable.rendered { link := some "x", meta := some [("title", "t")] })
      (by decide)).1

end LinkTool
